import Mathlib

/-!
Shallow embedding of `src/main.py`: a Flask application that uploads images
to a Google Cloud Storage bucket, generates a title/description for each
image with a generative-AI model, persists that metadata as a sibling JSON
object, and renders a gallery page.

External collaborators (the storage client, `json.loads`, PIL image
decoding, and the genai inference client) are modelled as oracles inside an
`Env` record; an operation that the Python code wraps in `try/except` is
modelled as returning `Except PyErr _`.  Storage writes that the source
does not guard (`blob.upload_from_file` in `upload_to_gcs`) are modelled as
always succeeding, since no claim concerns their failure.  Bytes are
`List Nat`; Python exceptions are their message strings.
-/

set_option maxRecDepth 100000

/-- Python exception, identified by its message text. -/
abbrev PyErr := String

/-- Raw object bytes. -/
abbrev Bytes := List Nat

/-- A JSON value, as produced by `json.loads`.  Numbers are restricted to
integers; no claim involves numeric metadata. -/
inductive Json where
  | null : Json
  | bool : Bool → Json
  | num : Int → Json
  | str : String → Json
  | arr : List Json → Json
  | obj : List (String × Json) → Json
deriving Repr

/-- Python `repr` of a JSON-decoded value (used by `str` for containers).
String escaping inside `repr` is not modelled; no claim renders strings
with special characters through `repr`. -/
def reprPy : Json → String
  | .null => "None"
  | .bool true => "True"
  | .bool false => "False"
  | .num n => toString n
  | .str s => "\x27" ++ s ++ "\x27"
  | .arr xs => "[" ++ String.intercalate ", " (xs.attach.map (fun x => reprPy x.1)) ++ "]"
  | .obj kvs =>
      "\x7b" ++
        String.intercalate ", "
          (kvs.attach.map (fun kv => "\x27" ++ kv.1.1 ++ "\x27: " ++ reprPy kv.1.2)) ++
      "\x7d"
decreasing_by
  · have h := List.sizeOf_lt_of_mem x.2
    simp only [Json.arr.sizeOf_spec]
    omega
  · obtain ⟨⟨a, b⟩, hm⟩ := kv
    have h := List.sizeOf_lt_of_mem hm
    simp only [Prod.mk.sizeOf_spec] at h
    simp only [Json.obj.sizeOf_spec]
    omega

/-- Python `str` of a JSON-decoded value, as interpolated by an f-string. -/
def pyStr : Json → String
  | .str s => s
  | j => reprPy j

/-- Python `str` applied to the result of `dict.get` (which is `None` when
the key is absent). -/
def pyStrOpt : Option Json → String
  | none => "None"
  | some j => pyStr j

/-- Python `json_info.get(k)`.  Raises `AttributeError` when the decoded
value is not a dict; this call sits OUTSIDE the `try` block in `index`. -/
def jsonGet (j : Json) (k : String) : Except PyErr (Option Json) :=
  match j with
  | .obj kvs => .ok ((kvs.find? (fun kv => kv.1 == k)).map (fun kv => kv.2))
  | _ => .error "AttributeError: object has no attribute get"

/-- A stored object: its bytes and its recorded content type. -/
structure Obj where
  data : Bytes
  contentType : Option String
deriving Repr, DecidableEq

/-- The bucket: a name-keyed collection of objects. -/
abbrev Store := List (String × Obj)

/-- Model of `bucket.blob(name)` + `download_as_bytes()` against a store: succeeds
with the object when present, raises `NotFound` otherwise. -/
def fetchObj (st : Store) (name : String) : Except PyErr Obj :=
  match st.find? (fun p => p.1 == name) with
  | some p => .ok p.2
  | none => .error ("404 blob not found: " ++ name)

/-- Overwriting put: last writer wins on a name collision. -/
def putObj (st : Store) (name : String) (o : Obj) : Store :=
  if st.any (fun p => p.1 == name) then
    st.map (fun p => if p.1 == name then (name, o) else p)
  else
    st ++ [(name, o)]

/-- UTF-8 encoding of the metadata string written by
`upload_from_string`; code points stand in for bytes (all metadata in the
claims is ASCII). -/
def strToBytes (s : String) : Bytes := s.data.map Char.toNat

/-- Python `s.rsplit('.', 1)[0]`: everything before the last dot, or the
whole string when it has no dot. -/
def pyRsplitDot1Head (s : String) : String :=
  match s.data.reverse.dropWhile (fun c => c != '.') with
  | [] => s
  | _ :: rest => String.mk rest.reverse

/-- Metadata-name derivation at `index` (main.py line 34):
`blob.name.rsplit('.', 1)[0] + '-json.json'`. -/
def jsonNameIndex (name : String) : String :=
  pyRsplitDot1Head name ++ "-json.json"

/-- Metadata-name derivation at `save_info` (main.py line 192):
`blob.name.rsplit('.', 1)[0] + '-json.json'`. -/
def jsonNameSave (name : String) : String :=
  pyRsplitDot1Head name ++ "-json.json"

example : jsonNameIndex "foo.bar.jpg" = "foo.bar-json.json" := by decide
example : jsonNameSave "foo.jpg" = "foo-json.json" := by decide
example : jsonNameSave ".jpg" = "-json.json" := by decide
example : jsonNameSave "nodot" = "nodot-json.json" := by decide
example : pyStr (.str "T") = "T" := by decide
example : pyStrOpt none = "None" := by decide

/-- An in-memory PIL image: its mode (color model), the format recorded by
the decoder (`None` after `convert`), its pixel dimensions, and an abstract
tag for its pixel content. -/
structure PILImage where
  mode : String
  format : Option String
  size : Nat × Nat
  content : Nat
deriving Repr, DecidableEq

/-- Test `image.format not in ["JPEG", "JPG"]`, negated.  `format` is `None`
(hence not JPEG-family) for images that PIL created rather than decoded. -/
def isJpegFamily (f : Option String) : Bool :=
  f == some "JPEG" || f == some "JPG"

/-- PIL semantics of `image.convert("RGB")`: a new image in mode RGB whose
`format` is `None`. -/
def pilConvertRGB (i : PILImage) : PILImage :=
  { i with mode := "RGB", format := none }

/-- PIL semantics of saving to an in-memory JPEG and reopening: the decoded
copy reports format JPEG. -/
def pilSaveReopen (i : PILImage) : PILImage :=
  { i with format := some "JPEG" }

/-- PIL semantics of `image.resize(sz)`: same image at the new size,
aspect ratio ignored. -/
def pilResize (i : PILImage) (sz : Nat × Nat) : PILImage :=
  { i with size := sz }

/-- Oracles for the external collaborators:
    * `apiKey` — `os.getenv("GOOGLE_API_KEY")`;
    * `loads` — `json.loads` on downloaded bytes;
    * `openImage` — `Image.open` on downloaded bytes;
    * `convertRGB`, `saveJpegReopen`, `resize` — the PIL operations,
      fallible because the code catches their exceptions;
    * `genContent` — `client.models.generate_content(...)  .text` for a
      given image and instruction (client construction failures are folded
      into a failing first call);
    * `putStringFails` — whether `upload_from_string` on a given object
      name raises. -/
structure Env where
  apiKey : Option String
  loads : Bytes → Except PyErr Json
  openImage : Bytes → Except PyErr PILImage
  convertRGB : PILImage → Except PyErr PILImage
  saveJpegReopen : PILImage → Except PyErr PILImage
  resize : PILImage → Nat × Nat → Except PyErr PILImage
  genContent : PILImage → String → Except PyErr String
  putStringFails : String → Bool

/-- Python truthiness of the `api_key` value: `not api_key` holds exactly
when the variable is unset or the empty string. -/
def truthyKey : Option String → Bool
  | none => false
  | some s => !(s == "")

/-- An HTTP response as produced by the handlers: `send_file` bytes, a
`(body, status)` text tuple, a `redirect`, or a raw `Response` with
explicit headers. -/
inductive HResp where
  | file : Bytes → String → HResp
  | text : String → Nat → HResp
  | redirect : String → HResp
  | raw : Bytes → List (String × String) → HResp
deriving Repr, DecidableEq

/-- Instruction sent for the title (main.py line 170). -/
def titlePrompt : String := "Generate a single, short title for this image."

/-- Instruction sent for the description (main.py line 176). -/
def descPrompt : String := "Generate a short, one-sentence description of this image."

/-- Function `ensure_jpeg_format` (main.py lines 119-129): identity when the decoded
format is JPEG-family, otherwise convert to RGB, save as JPEG in memory and
reopen. -/
def ensure_jpeg_format (env : Env) (image : PILImage) : Except PyErr PILImage :=
  if isJpegFamily image.format then
    .ok image
  else do
    let image ← env.convertRGB image
    env.saveJpegReopen image

/-- The image-processing `try` block of `generate_title_description`
(main.py lines 152-159): `Image.open`, `ensure_jpeg_format`,
`convert("RGB")`, `resize((512, 512))`. -/
def processImage (env : Env) (file_data : Bytes) : Except PyErr PILImage := do
  let image ← env.openImage file_data
  let image ← ensure_jpeg_format env image
  let image ← env.convertRGB image
  env.resize image (512, 512)

/-- The image that `processImage` yields when the PIL oracles follow the
pure PIL semantics (`pilConvertRGB`, `pilSaveReopen`, `pilResize`). -/
def normalizedImage (image : PILImage) : PILImage :=
  pilResize
    (pilConvertRGB
      (if isJpegFamily image.format then image else pilSaveReopen (pilConvertRGB image)))
    (512, 512)

/-- Function `generate_title_description` (main.py lines 131-186).  `fetch` is
`blob.download_as_bytes` for the blob named `name`.  Every failure the code
catches yields an early return; the function is total, so no exception
reaches the caller. -/
def generate_title_description (env : Env) (fetch : String → Except PyErr Obj)
    (name : String) : String × String :=
  if !truthyKey env.apiKey then
    ("Error", "Error")
  else
    match fetch name with
    | .error _ => ("Error fetching title", "Error fetching description")
    | .ok o =>
      if o.data.length < 500 then
        ("Error fetching title", "Error fetching description")
      else
        match processImage env o.data with
        | .error _ => ("Error fetching title", "Error fetching description")
        | .ok image =>
          match env.genContent image titlePrompt with
          | .error _ => ("Error fetching title", "Error fetching description")
          | .ok t =>
            match env.genContent image descPrompt with
            | .error _ => ("Error fetching title", "Error fetching description")
            | .ok d => (t, d)

/-- Minimal JSON-string escaping used by `json.dumps` on the metadata
strings (quote, backslash and the common control characters; other control
characters are left verbatim, no claim exercises them). -/
def jsonEscapeChar (c : Char) : String :=
  if c = '"' then "\\\""
  else if c = '\\' then "\\\\"
  else if c = '\n' then "\\n"
  else if c = '\t' then "\\t"
  else if c = '\r' then "\\r"
  else String.mk [c]

/-- Serialization `json.dumps` of the record with keys `title`, `description`
(main.py line 193). -/
def pyDumps (title description : String) : String :=
  "\x7b\"title\": \"" ++ String.join (title.data.map jsonEscapeChar) ++
  "\", \"description\": \"" ++ String.join (description.data.map jsonEscapeChar) ++
  "\"\x7d"

/-- Function `save_info` (main.py lines 189-199): generate the metadata, derive the
sibling JSON object name, serialize, and write it with content type
`application/json`; a write failure is caught and leaves the store
unchanged. -/
def save_info (env : Env) (st : Store) (name : String) : Store :=
  let td := generate_title_description env (fetchObj st) name
  let json_filename := jsonNameSave name
  let info := pyDumps td.1 td.2
  if env.putStringFails json_filename then st
  else putObj st json_filename ⟨strToBytes info, some "application/json"⟩

/-- A file in the multipart form data: `request.files["form_file"]`. -/
structure PyFile where
  filename : String
  content : Bytes
deriving Repr, DecidableEq

/-- Function `upload_to_gcs` (main.py lines 112-117): write the file bytes under its
original filename.  The source does not set a content type and does not
guard this write; it is modelled as succeeding. -/
def upload_to_gcs (st : Store) (file : PyFile) : Store :=
  putObj st file.filename ⟨file.content, none⟩

/-- Handler `upload` (main.py lines 68-88).  `files` is `request.files` as an
association list; returns the response and the resulting store. -/
def upload (env : Env) (st : Store) (files : List (String × PyFile)) :
    HResp × Store :=
  match files.find? (fun p => p.1 == "form_file") with
  | none => (.text "No file uploaded" 400, st)
  | some p =>
    let file := p.2
    if file.filename == "" then
      (.text "No selected file" 400, st)
    else
      let st1 := upload_to_gcs st file
      let st2 := save_info env st1 file.filename
      (.redirect "/", st2)

/-- Handler `serve_image` (main.py lines 54-66): return the raw bytes with the
fixed mimetype `image/jpeg`; any fetch failure becomes a 404 text
response carrying the exception text. -/
def serve_image (fetch : String → Except PyErr Obj) (filename : String) : HResp :=
  match fetch filename with
  | .ok o => .file o.data "image/jpeg"
  | .error e => .text ("Error loading image: " ++ e) 404

/-- Handler `download_file` (main.py lines 90-109): return the bytes with a
`Content-Disposition: attachment` header naming the file and the recorded
content type (default `application/octet-stream`); any fetch failure
becomes a 500 text response. -/
def download_file (fetch : String → Except PyErr Obj) (filename : String) : HResp :=
  match fetch filename with
  | .ok o =>
    .raw o.data
      [("Content-Disposition", "attachment; filename=" ++ filename),
       ("Content-Type", o.contentType.getD "application/octet-stream")]
  | .error _ => .text "Error retrieving file" 500

/-- Lexicographic (code-point) order on character lists, as used by the
bucket listing. -/
def charListLt : List Char → List Char → Bool
  | [], [] => false
  | [], _ :: _ => true
  | _ :: _, [] => false
  | c :: cs, d :: ds =>
    if c.toNat < d.toNat then true
    else if d.toNat < c.toNat then false
    else charListLt cs ds

/-- Lexicographic order on names. -/
def strLtB (a b : String) : Bool := charListLt a.data b.data

/-- Insert a name into a lexicographically sorted list. -/
def insertSorted (n : String) : List String → List String
  | [] => [n]
  | m :: ms => if strLtB m n then m :: insertSorted n ms else n :: m :: ms

/-- Listing `bucket.list_blobs()` returns object names in lexicographic order. -/
def sortNames (l : List String) : List String := l.foldr insertSorted []

/-- The blob names a store yields to `list_blobs`. -/
def listBlobs (st : Store) : List String := sortNames (st.map Prod.fst)

/-- Python `s.endswith(suffix)` on the character lists. -/
def pyEndsWith (s suffix : String) : Bool :=
  suffix.data.isSuffixOf s.data

/-- Filter `blob.name.endswith((".jpg", ".jpeg", ".png"))` (main.py line 33). -/
def isImageName (name : String) : Bool :=
  pyEndsWith name ".jpg" || pyEndsWith name ".jpeg" || pyEndsWith name ".png"

/-- The placeholder metadata record assigned before the `try` block
(main.py line 35). -/
def placeholderJson : Json :=
  .obj [("title", .str "No title"), ("description", .str "No description")]

/-- The static top of the gallery page (main.py lines 21-30). -/
def indexHeader : String :=
  "\n    <style>\n        body \x7b background-color: LIGHTBLUE; font-family: Arial; \x7d\n    </style>\n    <form method=\"post\" enctype=\"multipart/form-data\" action=\"/upload\">\n        <label for=\"file\">Choose file to upload</label>\n        <input type=\"file\" id=\"file\" name=\"form_file\" accept=\"image/jpeg\"/>\n        <button>Submit</button>\n    </form>\n    <h2>Uploaded Images</h2><ul>"

/-- The per-image HTML fragment (main.py lines 44-49), with the two
interpolated `json_info.get(...)` values already rendered as strings. -/
def entryHtml (name title description : String) : String :=
  "\n            <li><img src=\"/image/" ++ name ++
  "\" alt=\"Uploaded Image\" width=\"200\"></li>\n            <li><strong>Title:</strong> " ++
  title ++ "</li>\n            <li><strong>Description:</strong> " ++ description ++
  "</li>\n            <li><form action=\"/download/" ++ name ++
  "\" method=\"GET\">\n                <button type=\"submit\">Download</button></form></li>"

/-- The `try` block of the gallery loop (main.py lines 35-42): the value of
`json_info` after the block, i.e. the parsed metadata, or the placeholder
when the fetch or the parse raised a caught exception. -/
def fetchedInfo (env : Env) (fetch : String → Except PyErr Obj)
    (json_filename : String) : Json :=
  match fetch json_filename with
  | .error _ => placeholderJson
  | .ok o =>
    match env.loads o.data with
    | .error _ => placeholderJson
    | .ok j => j

/-- Whether the `try` block of the gallery loop caught an exception for the
given metadata object name (fetch failed, or `json.loads` failed), leaving
the placeholder in place. -/
def metadataCaught (env : Env) (fetch : String → Except PyErr Obj)
    (json_filename : String) : Bool :=
  match fetch json_filename with
  | .error _ => true
  | .ok o =>
    match env.loads o.data with
    | .error _ => true
    | .ok _ => false

/-- Whether a decoded JSON value is a Python dict. -/
def isDict : Json → Bool
  | .obj _ => true
  | _ => false

/-- One iteration of the gallery loop body for an image-named blob
(main.py lines 34-49): derive the metadata name, fetch and parse it with
the placeholder substituted on any caught failure, then render the
fragment.  The two `json_info.get` calls sit outside the `try` block, so
they can raise out of the handler. -/
def galleryEntry (env : Env) (fetch : String → Except PyErr Obj)
    (name : String) : Except PyErr String :=
  let json_filename := jsonNameIndex name
  let json_info : Json := fetchedInfo env fetch json_filename
  do
    let t ← jsonGet json_info "title"
    let d ← jsonGet json_info "description"
    .ok (entryHtml name (pyStrOpt t) (pyStrOpt d))

/-- The gallery loop (main.py lines 32-49): concatenate the fragment of
each image-named blob in listing order; an exception escaping an iteration
aborts the whole render. -/
def renderEntries (env : Env) (fetch : String → Except PyErr Obj) :
    List String → Except PyErr String
  | [] => .ok ""
  | n :: ns => do
    let frag ← galleryEntry env fetch n
    let rest ← renderEntries env fetch ns
    .ok (frag ++ rest)

/-- Handler `index` (main.py lines 15-52) over an explicit blob listing and fetch
oracle: the header, one fragment per image-named blob, then `</ul>`. -/
def indexH (env : Env) (blobs : List String)
    (fetch : String → Except PyErr Obj) : Except PyErr String := do
  let frags ← renderEntries env fetch (blobs.filter isImageName)
  .ok (indexHeader ++ frags ++ "</ul>")

/-- Handler `index` against a store state. -/
def indexStore (env : Env) (st : Store) : Except PyErr String :=
  indexH env (listBlobs st) (fetchObj st)

/-- A baseline environment: no API key, every external call fails, the
metadata write succeeds, and the PIL operations follow `pilConvertRGB`,
`pilSaveReopen` and `pilResize`. -/
def envDummy : Env where
  apiKey := none
  loads := fun _ => .error "json decode error"
  openImage := fun _ => .error "PIL cannot identify image"
  convertRGB := fun i => .ok (pilConvertRGB i)
  saveJpegReopen := fun i => .ok (pilSaveReopen i)
  resize := fun i sz => .ok (pilResize i sz)
  genContent := fun _ _ => .error "genai unavailable"
  putStringFails := fun _ => false

/-- Environment `envDummy` with a configured API key. -/
def envKeyed : Env := { envDummy with apiKey := some "k" }

example : truthyKey envKeyed.apiKey = true := by decide
example : truthyKey envDummy.apiKey = false := by decide
example :
    generate_title_description envDummy (fun _ => .error "x") "a.jpg" = ("Error", "Error") := by
  decide
example :
    generate_title_description envKeyed (fun _ => .error "x") "a.jpg" =
      ("Error fetching title", "Error fetching description") := by decide
example :
    galleryEntry envDummy (fun _ => .error "404") "a.jpg" =
      .ok (entryHtml "a.jpg" "No title" "No description") := rfl
example : listBlobs [("b.jpg", ⟨[1], none⟩), ("a.png", ⟨[2], none⟩)] = ["a.png", "b.jpg"] := rfl

/-- Bytes of the first uploaded image (500 bytes, passing the size guard). -/
def bytes1 : Bytes := List.replicate 500 1

/-- Bytes of the second uploaded image. -/
def bytes2 : Bytes := List.replicate 500 2

/-- Metadata record the model produces for the first image. -/
def rec1 : Json := .obj [("title", .str "T1"), ("description", .str "D1")]

/-- Metadata record the model produces for the second image. -/
def rec2 : Json := .obj [("title", .str "T2"), ("description", .str "D2")]

/-- Environment for the name-collision scenario: decodes either image
byte-string to a PNG-format image tagged with its source, the model titles
image 1 as T1/D1 and image 2 as T2/D2, and `json.loads` parses exactly the
two metadata strings this scenario writes. -/
def envW : Env where
  apiKey := some "k"
  loads := fun b =>
    if b = strToBytes (pyDumps "T1" "D1") then .ok rec1
    else if b = strToBytes (pyDumps "T2" "D2") then .ok rec2
    else .error "json decode error"
  openImage := fun b =>
    if b = bytes1 then .ok ⟨"RGB", some "PNG", (800, 600), 1⟩
    else if b = bytes2 then .ok ⟨"RGB", some "PNG", (800, 600), 2⟩
    else .error "PIL cannot identify image"
  convertRGB := fun i => .ok (pilConvertRGB i)
  saveJpegReopen := fun i => .ok (pilSaveReopen i)
  resize := fun i sz => .ok (pilResize i sz)
  genContent := fun i p =>
    .ok (if p == titlePrompt then (if i.content == 1 then "T1" else "T2")
         else (if i.content == 1 then "D1" else "D2"))
  putStringFails := fun _ => false

/-- The store after uploading `foo.jpg` into an empty bucket. -/
def st9a : Store := (upload envW [] [("form_file", ⟨"foo.jpg", bytes1⟩)]).2

/-- The store after then uploading `foo.png`. -/
def st9b : Store := (upload envW st9a [("form_file", ⟨"foo.png", bytes2⟩)]).2

example :
    fetchObj st9a "foo-json.json" =
      .ok ⟨strToBytes (pyDumps "T1" "D1"), some "application/json"⟩ := rfl
example :
    fetchObj st9b "foo-json.json" =
      .ok ⟨strToBytes (pyDumps "T2" "D2"), some "application/json"⟩ := rfl
example : galleryEntry envW (fetchObj st9b) "foo.jpg" = .ok (entryHtml "foo.jpg" "T2" "D2") := rfl
example : galleryEntry envW (fetchObj st9b) "foo.png" = .ok (entryHtml "foo.png" "T2" "D2") := rfl

theorem except_bind_ok {α β : Type} (a : α) (f : α → Except PyErr β) :
    (Except.ok a >>= f : Except PyErr β) = f a := rfl

theorem except_bind_error {α β : Type} (e : PyErr) (f : α → Except PyErr β) :
    (Except.error e >>= f : Except PyErr β) = Except.error e := rfl

theorem dropWhile_append_all {α : Type} (p : α → Bool) (xs ys : List α)
    (h : ∀ x ∈ xs, p x = true) :
    (xs ++ ys).dropWhile p = ys.dropWhile p := by
  induction xs with
  | nil => rfl
  | cons x xs ih =>
    have hx : p x = true := h x (List.mem_cons_self x xs)
    simp only [List.cons_append, List.dropWhile_cons, hx, if_true]
    exact ih (fun y hy => h y (List.mem_cons_of_mem x hy))

theorem pyRsplitDot1Head_append (a b : String) (hb : '.' ∉ b.data) :
    pyRsplitDot1Head (a ++ "." ++ b) = a := by
  have hall : ∀ c ∈ b.data.reverse, (c != '.') = true := by
    intro c hc
    rw [List.mem_reverse] at hc
    exact bne_iff_ne.mpr (fun hcd => hb (hcd ▸ hc))
  have hdot : ("." : String).data = ['.'] := rfl
  have hdata : (a ++ "." ++ b).data = a.data ++ '.' :: b.data := by
    rw [String.data_append, String.data_append, hdot]
    simp
  have hrev : (a ++ "." ++ b).data.reverse = b.data.reverse ++ '.' :: a.data.reverse := by
    rw [hdata]
    simp
  have hdrop : (a ++ "." ++ b).data.reverse.dropWhile (fun c => c != '.') =
      '.' :: a.data.reverse := by
    rw [hrev, dropWhile_append_all _ _ _ hall]
    simp [List.dropWhile_cons]
  unfold pyRsplitDot1Head
  rw [hdrop]
  simp

/-- C3: for every image name containing at least one dot, the derived
metadata-object name is obtained by stripping only the final extension
(everything after the last dot) and appending `-json.json`; the gallery
lookup (`jsonNameIndex`, main.py line 34) and metadata persistence
(`jsonNameSave`, main.py line 192) use the same derivation; in particular
`foo.bar.jpg` derives `foo.bar-json.json`. -/
theorem C3_metadata_name_derivation :
    (∀ s, jsonNameIndex s = jsonNameSave s) ∧
    (∀ a b : String, '.' ∉ b.data →
      jsonNameIndex (a ++ "." ++ b) = a ++ "-json.json") ∧
    jsonNameIndex "foo.bar.jpg" = "foo.bar-json.json" := by
  refine ⟨fun s => rfl, ?_, by decide⟩
  intro a b hb
  unfold jsonNameIndex
  rw [pyRsplitDot1Head_append a b hb]

/-- Witness for C3 at `a = "foo.bar"`, `b = "jpg"`. -/
theorem C3_metadata_name_derivation_witness :
    jsonNameIndex ("foo.bar" ++ "." ++ "jpg") = "foo.bar" ++ "-json.json" :=
  C3_metadata_name_derivation.2.1 "foo.bar" "jpg" (by decide)

/-- C7: `GET /image/<name>` returns 404 with a plain-text message on any
fetch failure (in particular a missing object), and on success returns the
raw bytes under the fixed content type `image/jpeg`, whatever the stored
recorded content type of the stored object. -/
theorem C7_serve_image_spec (fetch : String → Except PyErr Obj) (filename : String) :
    (∀ e, fetch filename = .error e →
      serve_image fetch filename = .text ("Error loading image: " ++ e) 404) ∧
    (∀ o, fetch filename = .ok o →
      serve_image fetch filename = .file o.data "image/jpeg") := by
  constructor
  · intro e he
    simp [serve_image, he]
  · intro o ho
    simp [serve_image, ho]

/-- Witness for C7: a failing fetch and a successful fetch of a PNG-typed
object. -/
theorem C7_serve_image_spec_witness :
    serve_image (fun _ => .error "boom") "x.jpg" =
      .text ("Error loading image: " ++ "boom") 404 ∧
    serve_image (fun _ => .ok ⟨[7], some "image/png"⟩) "x.jpg" = .file [7] "image/jpeg" :=
  ⟨(C7_serve_image_spec (fun _ => .error "boom") "x.jpg").1 "boom" rfl,
   (C7_serve_image_spec (fun _ => .ok ⟨[7], some "image/png"⟩) "x.jpg").2
     ⟨[7], some "image/png"⟩ rfl⟩

/-- C8: a successful `GET /download/<name>` carries a
`Content-Disposition: attachment` header containing the literal requested
filename and a `Content-Type` equal to the recorded content type of the
stored object (default `application/octet-stream`); any fetch failure
yields a 500 plain-text response. -/
theorem C8_download_file_spec (fetch : String → Except PyErr Obj) (filename : String) :
    (∀ o, fetch filename = .ok o →
      download_file fetch filename =
        .raw o.data
          [("Content-Disposition", "attachment; filename=" ++ filename),
           ("Content-Type", o.contentType.getD "application/octet-stream")]) ∧
    (∀ e, fetch filename = .error e →
      download_file fetch filename = .text "Error retrieving file" 500) := by
  constructor
  · intro o ho
    simp [download_file, ho]
  · intro e he
    simp [download_file, he]

/-- Witness for C8: a recorded content type, the missing-content-type
default, and a failing fetch. -/
theorem C8_download_file_spec_witness :
    download_file (fun _ => .ok ⟨[9], some "text/plain"⟩) "doc.txt" =
      .raw [9]
        [("Content-Disposition", "attachment; filename=" ++ "doc.txt"),
         ("Content-Type", "text/plain")] ∧
    download_file (fun _ => .ok ⟨[9], none⟩) "doc.txt" =
      .raw [9]
        [("Content-Disposition", "attachment; filename=" ++ "doc.txt"),
         ("Content-Type", "application/octet-stream")] ∧
    download_file (fun _ => .error "gone") "doc.txt" = .text "Error retrieving file" 500 :=
  ⟨(C8_download_file_spec (fun _ => .ok ⟨[9], some "text/plain"⟩) "doc.txt").1
     ⟨[9], some "text/plain"⟩ rfl,
   (C8_download_file_spec (fun _ => .ok ⟨[9], none⟩) "doc.txt").1 ⟨[9], none⟩ rfl,
   (C8_download_file_spec (fun _ => .error "gone") "doc.txt").2 "gone" rfl⟩

/-- C4: a POST to `/upload` with no `form_file` field, or with an empty
filename, returns a 400 plain-text response and leaves the store exactly
as it was: no image object and no metadata object is written. -/
theorem C4_upload_rejects_bad_input (env : Env) (st : Store)
    (files : List (String × PyFile)) :
    (files.find? (fun p => p.1 == "form_file") = none →
      upload env st files = (.text "No file uploaded" 400, st)) ∧
    (∀ p, files.find? (fun p => p.1 == "form_file") = some p → p.2.filename = "" →
      upload env st files = (.text "No selected file" 400, st)) := by
  constructor
  · intro h
    simp [upload, h]
  · intro p hp h0
    simp [upload, hp, h0]

/-- Witness for C4: an empty form, and a form whose file has an empty
filename, both against a non-empty store. -/
theorem C4_upload_rejects_bad_input_witness :
    upload envDummy [("old.jpg", ⟨[1], none⟩)] [] =
      (.text "No file uploaded" 400, [("old.jpg", ⟨[1], none⟩)]) ∧
    upload envDummy [("old.jpg", ⟨[1], none⟩)] [("form_file", ⟨"", [2]⟩)] =
      (.text "No selected file" 400, [("old.jpg", ⟨[1], none⟩)]) :=
  ⟨(C4_upload_rejects_bad_input envDummy [("old.jpg", ⟨[1], none⟩)] []).1 rfl,
   (C4_upload_rejects_bad_input envDummy [("old.jpg", ⟨[1], none⟩)]
      [("form_file", ⟨"", [2]⟩)]).2 ("form_file", ⟨"", [2]⟩) rfl rfl⟩

/-- C5: with the inference credential unset (or empty, equally falsy in
Python), `generate_title_description` returns exactly `("Error", "Error")`
— for every store and every oracle behavior, i.e. before any store or
inference call can matter — and any upload carrying a file with a
non-empty filename responds with a redirect to the gallery, whatever the
pipeline or the metadata write do (the quantification over `env` covers
every pipeline failure and a failing `upload_from_string`). -/
theorem C5_missing_credential_error_and_redirect :
    (∀ (env : Env) (fetch : String → Except PyErr Obj) (name : String),
      truthyKey env.apiKey = false →
      generate_title_description env fetch name = ("Error", "Error")) ∧
    (∀ (env : Env) (st : Store) (files : List (String × PyFile)) (p : String × PyFile),
      files.find? (fun q => q.1 == "form_file") = some p →
      p.2.filename ≠ "" →
      (upload env st files).1 = .redirect "/") := by
  constructor
  · intro env fetch name h
    simp [generate_title_description, h]
  · intro env st files p hp h0
    simp [upload, hp, h0]

/-- Witness for C5: the keyless `envDummy` (whose inference and metadata
write oracles are never consulted), and a concrete valid upload under it. -/
theorem C5_missing_credential_error_and_redirect_witness :
    generate_title_description envDummy (fun _ => .error "x") "a.jpg" = ("Error", "Error") ∧
    (upload envDummy [] [("form_file", ⟨"a.jpg", [1]⟩)]).1 = .redirect "/" :=
  ⟨C5_missing_credential_error_and_redirect.1 envDummy (fun _ => .error "x") "a.jpg" rfl,
   C5_missing_credential_error_and_redirect.2 envDummy [] [("form_file", ⟨"a.jpg", [1]⟩)]
     ("form_file", ⟨"a.jpg", [1]⟩) rfl (by decide)⟩

/-- C2: with an inference credential configured, every guarded failure of
the pipeline — the re-download raising, a downloaded payload under 500
bytes, the decode/normalize block raising, or either inference call
raising — makes `generate_title_description` return exactly
`("Error fetching title", "Error fetching description")`; the function is
total, so no exception reaches the caller. -/
theorem C2_pipeline_failure_error_pair (env : Env)
    (fetch : String → Except PyErr Obj) (name : String)
    (hkey : truthyKey env.apiKey = true) :
    (∀ e, fetch name = .error e →
      generate_title_description env fetch name =
        ("Error fetching title", "Error fetching description")) ∧
    (∀ o, fetch name = .ok o → o.data.length < 500 →
      generate_title_description env fetch name =
        ("Error fetching title", "Error fetching description")) ∧
    (∀ o e, fetch name = .ok o → 500 ≤ o.data.length →
      processImage env o.data = .error e →
      generate_title_description env fetch name =
        ("Error fetching title", "Error fetching description")) ∧
    (∀ o img e, fetch name = .ok o → 500 ≤ o.data.length →
      processImage env o.data = .ok img →
      env.genContent img titlePrompt = .error e →
      generate_title_description env fetch name =
        ("Error fetching title", "Error fetching description")) ∧
    (∀ o img t e, fetch name = .ok o → 500 ≤ o.data.length →
      processImage env o.data = .ok img →
      env.genContent img titlePrompt = .ok t →
      env.genContent img descPrompt = .error e →
      generate_title_description env fetch name =
        ("Error fetching title", "Error fetching description")) := by
  refine ⟨?_, ?_, ?_, ?_, ?_⟩
  · intro e he
    simp [generate_title_description, hkey, he]
  · intro o ho hlen
    simp [generate_title_description, hkey, ho, hlen]
  · intro o e ho hlen hpr
    simp [generate_title_description, hkey, ho, Nat.not_lt.mpr hlen, hpr]
  · intro o img e ho hlen hpr ht
    simp [generate_title_description, hkey, ho, Nat.not_lt.mpr hlen, hpr, ht]
  · intro o img t e ho hlen hpr ht hd
    simp [generate_title_description, hkey, ho, Nat.not_lt.mpr hlen, hpr, ht, hd]

/-- Witness for C2: a keyed environment whose image re-download raises. -/
theorem C2_pipeline_failure_error_pair_witness :
    truthyKey envKeyed.apiKey = true ∧
    generate_title_description envKeyed (fun _ => .error "connection reset") "a.jpg" =
      ("Error fetching title", "Error fetching description") :=
  ⟨rfl,
   (C2_pipeline_failure_error_pair envKeyed (fun _ => .error "connection reset") "a.jpg"
      rfl).1 "connection reset" rfl⟩

/-- C6: on the success path (credential set, download of at least 500
bytes, decode succeeding, both inference calls succeeding), with the PIL
oracles following PIL semantics, the image sent to the model is the
decoded image converted to the RGB three-channel model and resized to
exactly 512×512; the JPEG round-trip inside `ensure_jpeg_format` happens
exactly when the decoded format is not JPEG-family; both inference
requests receive that same normalized image, and their two text outputs
are returned verbatim as the result pair. -/
theorem C6_success_path_normalization (env : Env)
    (fetch : String → Except PyErr Obj) (name : String) (o : Obj)
    (img : PILImage) (t d : String)
    (hconv : ∀ i, env.convertRGB i = .ok (pilConvertRGB i))
    (hsave : ∀ i, env.saveJpegReopen i = .ok (pilSaveReopen i))
    (hres : ∀ i sz, env.resize i sz = .ok (pilResize i sz))
    (hkey : truthyKey env.apiKey = true)
    (hfetch : fetch name = .ok o)
    (hlen : 500 ≤ o.data.length)
    (hopen : env.openImage o.data = .ok img)
    (ht : env.genContent (normalizedImage img) titlePrompt = .ok t)
    (hd : env.genContent (normalizedImage img) descPrompt = .ok d) :
    generate_title_description env fetch name = (t, d) ∧
    (normalizedImage img).mode = "RGB" ∧
    (normalizedImage img).size = (512, 512) ∧
    (isJpegFamily img.format = true → ensure_jpeg_format env img = .ok img) ∧
    (isJpegFamily img.format = false →
      ensure_jpeg_format env img = .ok (pilSaveReopen (pilConvertRGB img))) := by
  have hens : ensure_jpeg_format env img =
      .ok (if isJpegFamily img.format then img else pilSaveReopen (pilConvertRGB img)) := by
    cases hf : isJpegFamily img.format <;>
      simp [ensure_jpeg_format, hf, hconv, hsave, except_bind_ok]
  have hpr : processImage env o.data = .ok (normalizedImage img) := by
    cases hf : isJpegFamily img.format <;>
      simp [processImage, hopen, hens, hf, hconv, hres, normalizedImage, except_bind_ok]
  refine ⟨?_, ?_, ?_, ?_, ?_⟩
  · simp [generate_title_description, hkey, hfetch, Nat.not_lt.mpr hlen, hpr, ht, hd]
  · cases hf : isJpegFamily img.format <;>
      simp [normalizedImage, hf, pilResize, pilConvertRGB, pilSaveReopen]
  · cases hf : isJpegFamily img.format <;>
      simp [normalizedImage, hf, pilResize, pilConvertRGB, pilSaveReopen]
  · intro hf
    simp [hens, hf]
  · intro hf
    simp [hens, hf]

/-- Witness for C6: `envW` decoding a 500-byte PNG payload; the
re-encoding branch is taken and the model outputs come back verbatim. -/
theorem C6_success_path_normalization_witness :
    generate_title_description envW (fun _ => .ok ⟨bytes1, none⟩) "foo.jpg" = ("T1", "D1") ∧
    (normalizedImage ⟨"RGB", some "PNG", (800, 600), 1⟩).mode = "RGB" ∧
    (normalizedImage ⟨"RGB", some "PNG", (800, 600), 1⟩).size = (512, 512) ∧
    (isJpegFamily (some "PNG") = false →
      ensure_jpeg_format envW ⟨"RGB", some "PNG", (800, 600), 1⟩ =
        .ok (pilSaveReopen (pilConvertRGB ⟨"RGB", some "PNG", (800, 600), 1⟩))) := by
  have h := C6_success_path_normalization envW (fun _ => .ok ⟨bytes1, none⟩) "foo.jpg"
    ⟨bytes1, none⟩ ⟨"RGB", some "PNG", (800, 600), 1⟩ "T1" "D1"
    (fun i => rfl) (fun i => rfl) (fun i sz => rfl) rfl rfl
    (by simp [bytes1]) rfl rfl rfl
  exact ⟨h.1, h.2.1, h.2.2.1, h.2.2.2.2⟩

theorem galleryEntry_eq (env : Env) (fetch : String → Except PyErr Obj) (name : String) :
    galleryEntry env fetch name =
      (jsonGet (fetchedInfo env fetch (jsonNameIndex name)) "title" >>= fun t =>
       jsonGet (fetchedInfo env fetch (jsonNameIndex name)) "description" >>= fun d =>
       .ok (entryHtml name (pyStrOpt t) (pyStrOpt d))) := rfl

theorem fetchedInfo_of_caught (env : Env) (fetch : String → Except PyErr Obj)
    (jf : String) (h : metadataCaught env fetch jf = true) :
    fetchedInfo env fetch jf = placeholderJson := by
  cases hf : fetch jf with
  | error e => simp [fetchedInfo, hf]
  | ok o =>
    cases hl : env.loads o.data with
    | error e => simp [fetchedInfo, hf, hl]
    | ok j =>
      exfalso
      simp [metadataCaught, hf, hl] at h

theorem galleryEntry_placeholder (env : Env) (fetch : String → Except PyErr Obj)
    (name : String) (h : metadataCaught env fetch (jsonNameIndex name) = true) :
    galleryEntry env fetch name = .ok (entryHtml name "No title" "No description") := by
  rw [galleryEntry_eq, fetchedInfo_of_caught env fetch _ h]
  rfl

theorem galleryEntry_ok_of_dict (env : Env) (fetch : String → Except PyErr Obj)
    (name : String)
    (h : isDict (fetchedInfo env fetch (jsonNameIndex name)) = true) :
    ∃ s, galleryEntry env fetch name = .ok s := by
  cases hinfo : fetchedInfo env fetch (jsonNameIndex name) with
  | obj kvs =>
    exact ⟨entryHtml name
        (pyStrOpt ((kvs.find? (fun kv => kv.1 == "title")).map (fun kv => kv.2)))
        (pyStrOpt ((kvs.find? (fun kv => kv.1 == "description")).map (fun kv => kv.2))),
      by rw [galleryEntry_eq, hinfo]; rfl⟩
  | null => rw [hinfo] at h; cases h
  | bool b => rw [hinfo] at h; cases h
  | num n => rw [hinfo] at h; cases h
  | str s => rw [hinfo] at h; cases h
  | arr xs => rw [hinfo] at h; cases h

theorem renderEntries_ok (env : Env) (fetch : String → Except PyErr Obj)
    (l : List String)
    (h : ∀ n ∈ l, ∃ s, galleryEntry env fetch n = .ok s) :
    ∃ s, renderEntries env fetch l = .ok s := by
  induction l with
  | nil => exact ⟨"", rfl⟩
  | cons n ns ih =>
    obtain ⟨s1, hs1⟩ := h n (List.mem_cons_self n ns)
    obtain ⟨s2, hs2⟩ := ih (fun m hm => h m (List.mem_cons_of_mem n hm))
    exact ⟨s1 ++ s2, by simp [renderEntries, hs1, hs2, except_bind_ok]⟩

/-- C1 (amended): for each image-named blob, a caught fetch or parse
failure of its metadata object renders the entry with the placeholder
record `title = "No title"`, `description = "No description"`; and the
rendering as a whole succeeds PROVIDED every metadata object that fetches
and parses successfully decodes to a JSON object (dict).  The proviso is
forced by the counterexample `C1_gallery_render_counterexample`: a
metadata object holding valid non-dict JSON makes the `.get` attribute
lookup — which sits outside the `try` block — raise out of the handler. -/
theorem C1_gallery_render_amended (env : Env) (blobs : List String)
    (fetch : String → Except PyErr Obj)
    (hgood : ∀ name ∈ blobs.filter isImageName,
      isDict (fetchedInfo env fetch (jsonNameIndex name)) = true) :
    (∃ html, indexH env blobs fetch = .ok html) ∧
    (∀ name ∈ blobs.filter isImageName,
      metadataCaught env fetch (jsonNameIndex name) = true →
      galleryEntry env fetch name = .ok (entryHtml name "No title" "No description")) := by
  constructor
  · obtain ⟨s, hs⟩ := renderEntries_ok env fetch (blobs.filter isImageName)
      (fun n hn => galleryEntry_ok_of_dict env fetch n (hgood n hn))
    exact ⟨indexHeader ++ s ++ "</ul>", by simp [indexH, hs, except_bind_ok]⟩
  · intro name hm hc
    exact galleryEntry_placeholder env fetch name hc

/-- Witness for C1 (amended): one image blob whose metadata fetch fails;
the page renders and the entry carries the placeholder. -/
theorem C1_gallery_render_amended_witness :
    (∃ html, indexH envDummy ["a.jpg"] (fun _ => .error "404") = .ok html) ∧
    (∀ name ∈ ["a.jpg"].filter isImageName,
      metadataCaught envDummy (fun _ => .error "404") (jsonNameIndex name) = true →
      galleryEntry envDummy (fun _ => .error "404") name =
        .ok (entryHtml name "No title" "No description")) :=
  C1_gallery_render_amended envDummy ["a.jpg"] (fun _ => .error "404")
    (by decide)

/-- Environment in which `json.loads` decodes the seven bytes `"hello"`
to the JSON string `hello` (exactly what the Python `json.loads` does) and
rejects everything else. -/
def envNonDict : Env :=
  { envDummy with
    loads := fun b =>
      if b = strToBytes "\"hello\"" then .ok (.str "hello")
      else .error "json decode error" }

/-- Store holding one image and a metadata object containing the valid
JSON document `"hello"` (a string, not an object). -/
def stNonDict : Store :=
  [("a.jpg", ⟨List.replicate 600 7, none⟩),
   ("a-json.json", ⟨strToBytes "\"hello\"", some "application/json"⟩)]

/-- C1 counterexample: the metadata object fetches and parses successfully
(so nothing is caught), but the decoded value is not a dict, and the
gallery handler raises `AttributeError` out of `index` instead of
rendering a document — refuting "the gallery rendering as a whole never
fails regardless of metadata fetch/parse outcomes". -/
theorem C1_gallery_render_counterexample :
    envNonDict.loads (strToBytes "\"hello\"") = .ok (.str "hello") ∧
    indexStore envNonDict stNonDict =
      .error "AttributeError: object has no attribute get" :=
  ⟨rfl, rfl⟩

/-- C10: the placeholder is substituted only when the metadata fetch or
parse raises; when the metadata object parses to a JSON object that lacks
the `title` key, the rendered entry shows the Python `None` for the title
(and the raw `.get` result for the description), and symmetrically a
parsed object lacking the `description` key renders `None` for the
description (and the raw `.get` result for the title) — never the
placeholder text. -/
theorem C10_placeholder_only_on_exception :
    (∀ (env : Env) (fetch : String → Except PyErr Obj) (name : String)
        (o : Obj) (kvs : List (String × Json)),
      fetch (jsonNameIndex name) = .ok o →
      env.loads o.data = .ok (.obj kvs) →
      kvs.find? (fun kv => kv.1 == "title") = none →
      galleryEntry env fetch name =
        .ok (entryHtml name "None"
          (pyStrOpt ((kvs.find? (fun kv => kv.1 == "description")).map (fun kv => kv.2))))) ∧
    (∀ (env : Env) (fetch : String → Except PyErr Obj) (name : String)
        (o : Obj) (kvs : List (String × Json)),
      fetch (jsonNameIndex name) = .ok o →
      env.loads o.data = .ok (.obj kvs) →
      kvs.find? (fun kv => kv.1 == "description") = none →
      galleryEntry env fetch name =
        .ok (entryHtml name
          (pyStrOpt ((kvs.find? (fun kv => kv.1 == "title")).map (fun kv => kv.2)))
          "None")) ∧
    (∀ (env : Env) (fetch : String → Except PyErr Obj) (name : String),
      metadataCaught env fetch (jsonNameIndex name) = true →
      galleryEntry env fetch name = .ok (entryHtml name "No title" "No description")) := by
  refine ⟨?_, ?_, ?_⟩
  · intro env fetch name o kvs hf hl ht
    have hinfo : fetchedInfo env fetch (jsonNameIndex name) = .obj kvs := by
      simp [fetchedInfo, hf, hl]
    rw [galleryEntry_eq, hinfo]
    simp [jsonGet, ht, except_bind_ok, pyStrOpt]
  · intro env fetch name o kvs hf hl hd
    have hinfo : fetchedInfo env fetch (jsonNameIndex name) = .obj kvs := by
      simp [fetchedInfo, hf, hl]
    rw [galleryEntry_eq, hinfo]
    simp [jsonGet, hd, except_bind_ok, pyStrOpt]
  · intro env fetch name h
    exact galleryEntry_placeholder env fetch name h

/-- Environment whose `json.loads` decodes the two bytes of the empty
JSON object to an empty dict. -/
def envEmptyObj : Env :=
  { envDummy with
    loads := fun b =>
      if b = strToBytes "\x7b\x7d" then .ok (.obj []) else .error "json decode error" }

/-- Environment whose `json.loads` decodes the bytes of a one-key JSON
object holding only a title to the corresponding dict. -/
def envTitleOnly : Env :=
  { envDummy with
    loads := fun b =>
      if b = strToBytes "\x7b\"title\": \"T\"\x7d" then .ok (.obj [("title", .str "T")])
      else .error "json decode error" }

/-- Witness for C10: an empty-dict metadata object renders `None`/`None`;
a dict with only `title` renders the title and `None` for the missing
description; a failing fetch renders the placeholder. -/
theorem C10_placeholder_only_on_exception_witness :
    galleryEntry envEmptyObj
        (fun _ => .ok ⟨strToBytes "\x7b\x7d", some "application/json"⟩) "n.jpg" =
      .ok (entryHtml "n.jpg" "None" "None") ∧
    galleryEntry envTitleOnly
        (fun _ => .ok ⟨strToBytes "\x7b\"title\": \"T\"\x7d", some "application/json"⟩)
        "n.jpg" =
      .ok (entryHtml "n.jpg" "T" "None") ∧
    galleryEntry envEmptyObj (fun _ => .error "404") "n.jpg" =
      .ok (entryHtml "n.jpg" "No title" "No description") :=
  ⟨C10_placeholder_only_on_exception.1 envEmptyObj
     (fun _ => .ok ⟨strToBytes "\x7b\x7d", some "application/json"⟩) "n.jpg"
     ⟨strToBytes "\x7b\x7d", some "application/json"⟩ [] rfl rfl rfl,
   C10_placeholder_only_on_exception.2.1 envTitleOnly
     (fun _ => .ok ⟨strToBytes "\x7b\"title\": \"T\"\x7d", some "application/json"⟩)
     "n.jpg" ⟨strToBytes "\x7b\"title\": \"T\"\x7d", some "application/json"⟩
     [("title", .str "T")] rfl rfl rfl,
   C10_placeholder_only_on_exception.2.2 envEmptyObj (fun _ => .error "404") "n.jpg" rfl⟩

/-- C9: the metadata-name derivation is not injective — `foo.jpg` and
`foo.png` both derive `foo-json.json` — and in the two-upload scenario
(`st9a` after uploading `foo.jpg`, `st9b` after then uploading `foo.png`)
the metadata record of the second upload overwrites that of the first, and the
gallery renders the second record (`T2`/`D2`) for both image entries. -/
theorem C9_metadata_name_collision :
    jsonNameSave "foo.jpg" = "foo-json.json" ∧
    jsonNameSave "foo.png" = "foo-json.json" ∧
    jsonNameIndex "foo.jpg" = jsonNameIndex "foo.png" ∧
    "foo.jpg" ≠ "foo.png" ∧
    fetchObj st9a "foo-json.json" =
      .ok ⟨strToBytes (pyDumps "T1" "D1"), some "application/json"⟩ ∧
    fetchObj st9b "foo-json.json" =
      .ok ⟨strToBytes (pyDumps "T2" "D2"), some "application/json"⟩ ∧
    galleryEntry envW (fetchObj st9b) "foo.jpg" = .ok (entryHtml "foo.jpg" "T2" "D2") ∧
    galleryEntry envW (fetchObj st9b) "foo.png" = .ok (entryHtml "foo.png" "T2" "D2") :=
  ⟨rfl, rfl, rfl, by decide, rfl, rfl, rfl, rfl⟩
